import Mathlib

/-!
Verification of the observability and fault-injection core of the
E-Commerce Checkout System (Flask backend, `src/app.py`).

Shallow embedding conventions:
* machine floats that hold durations and percentages are modelled as `ℚ`;
  durations are in seconds (as in the source, which converts to ms at the
  point of display) unless a name says `_ms`;
* wall-clock display strings (the `time`/`timestamp` fields of history and
  log entries) are omitted: they are produced by `datetime.now().strftime`
  purely for display and no property depends on them;
* elapsed real time is modelled symbolically: each instrumented call takes
  an injected delay of `latency_ms / 1000` seconds (the `time.sleep` call),
  plus the handler running time `handlerTime`, plus a non-negative
  bookkeeping `overhead`;
* the `round(x, n)` calls applied just before `jsonify` are display-level
  formatting of floats and are not modelled; derived figures are returned
  exact;
* a Flask JSON response is modelled by `JsonResponse`; a handler either
  returns a response (`Except.ok`) or raises (`Except.error`).
-/

/-- Monitoring metrics dictionary (`metrics` in src/app.py). The two
timestamp fields `last_request_time` and `uptime_start` are display/uptime
bookkeeping and are omitted. -/
structure Metrics where
  total_requests : Nat
  error_requests : Nat
  total_response_time : ℚ
  orders_created : Nat
  total_sales : Nat
deriving DecidableEq

/-- One entry of `response_time_history`: duration in ms and error flag.
The display-only `time` string is omitted. -/
structure Sample where
  value : ℚ
  is_error : Bool
deriving DecidableEq

/-- One entry of `log_history` (`add_log` in src/app.py); the display-only
timestamp string is omitted. Synthetic entries built inside `get_logs`
carry no category in the source; we fill in "system" for them. -/
structure LogEntry where
  level : String
  message : String
  category : String
deriving DecidableEq

/-- Fault injection state (`fault_state` in src/app.py). -/
structure FaultState where
  database_down : Bool
  high_latency : Bool
  latency_ms : Nat
deriving DecidableEq

/-- The process-wide mutable state of the core: metrics counters, the
response-time history, the log history and the fault flags. -/
structure SysState where
  metrics : Metrics
  history : List Sample
  logs : List LogEntry
  fault : FaultState
deriving DecidableEq

/-- A JSON body returned by an endpoint, together with the HTTP status.
Fields that a given endpoint does not emit keep their defaults. -/
structure JsonResponse where
  http_status : Nat
  status : String
  message : String
  error_code : Option String := none
  recovered_faults : List String := []
deriving DecidableEq

/-- Constant `MAX_HISTORY_POINTS` from src/app.py line 51. -/
def MAX_HISTORY_POINTS : Nat := 20

/-- The append-then-evict step used on `response_time_history` in
`monitor_request` (src/app.py lines 130-136 and 151-157): append the
sample, then pop the head when the length exceeds `MAX_HISTORY_POINTS`. -/
def push_history (h : List Sample) (s : Sample) : List Sample :=
  let h2 := h ++ [s]
  if h2.length > MAX_HISTORY_POINTS then h2.tail else h2

/-- Function `add_log` from src/app.py lines 64-86: append the entry and keep only
the most recent 100 entries. -/
def add_log (logs : List LogEntry) (e : LogEntry) : List LogEntry :=
  let l := logs ++ [e]
  if l.length > 100 then l.drop (l.length - 100) else l

/-- A route handler: reads and may mutate the shared state, and either
returns a response or raises an exception (modelled by `Except.error`). -/
abbrev Handler := SysState → SysState × Except String JsonResponse

/-- The fixed 503 response of the `database_down` short-circuit in
`monitor_request` (src/app.py lines 139-143). -/
def db_down_response : JsonResponse :=
  { http_status := 503
    status := "error"
    message := "Database connection failed. Service temporarily unavailable."
    error_code := some "DB_CONNECTION_FAILED" }

/-- The log entry appended by the `database_down` short-circuit
(src/app.py line 137). -/
def db_down_log : LogEntry :=
  { level := "error"
    message := "Database connection failed - Service unavailable"
    category := "error" }

/-- The artificial delay (in seconds) injected at the top of the wrapper
(src/app.py lines 122-123): sleep `latency_ms / 1000` seconds when the
`high_latency` fault is active with a positive `latency_ms`. -/
def injected_delay (f : FaultState) : ℚ :=
  if f.high_latency ∧ f.latency_ms > 0 then (f.latency_ms : ℚ) / 1000 else 0

/-- Function `monitor_request` from src/app.py lines 111-166, the wrapper applied to
every instrumented route. `handlerTime` is the running time of the wrapped
handler and `overhead` the remaining non-negative elapsed time of the
wrapper itself; elapsed durations are sums of these symbolic parts.
Returns the state after the call and either the returned response or the
re-raised handler exception. -/
def monitor_request (handler : Handler) (handlerTime overhead : ℚ)
    (st : SysState) : SysState × Except String JsonResponse :=
  let st1 : SysState :=
    { st with metrics := { st.metrics with total_requests := st.metrics.total_requests + 1 } }
  let delay := injected_delay st1.fault
  if st1.fault.database_down then
    ({ st1 with
        metrics := { st1.metrics with error_requests := st1.metrics.error_requests + 1 }
        history := push_history st1.history { value := (delay + overhead) * 1000, is_error := true }
        logs := add_log st1.logs db_down_log },
      .ok db_down_response)
  else
    match handler st1 with
    | (st2, .ok resp) =>
        let response_time := delay + handlerTime + overhead
        ({ st2 with
            metrics := { st2.metrics with
              total_response_time := st2.metrics.total_response_time + response_time }
            history := push_history st2.history
              { value := response_time * 1000, is_error := false } },
          .ok resp)
    | (st2, .error e) =>
        ({ st2 with
            metrics := { st2.metrics with error_requests := st2.metrics.error_requests + 1 }
            logs := add_log st2.logs
              { level := "error", message := "Request failed: " ++ e, category := "error" } },
          .error e)

/-- Initial process state: all counters zero, empty histories, no faults
(src/app.py lines 39-61). -/
def initial_state : SysState :=
  { metrics := { total_requests := 0, error_requests := 0, total_response_time := 0
                 orders_created := 0, total_sales := 0 }
    history := []
    logs := []
    fault := { database_down := false, high_latency := false, latency_ms := 0 } }

/-- One item of the mock cart. -/
structure CartItem where
  price : Nat
  quantity : Nat
deriving DecidableEq

/-- Cart data `mock_cart["items"]` from src/app.py lines 31-36. -/
def mock_cart : List CartItem := [{ price := 120, quantity := 1 }, { price := 60, quantity := 1 }]

/-- The totals computed by `calculate_cart_totals`; the echoed `items`
field is omitted. -/
structure CartTotals where
  subtotal : Nat
  shipping_fee : Nat
  total : Nat
deriving DecidableEq

/-- Function `calculate_cart_totals` from src/app.py lines 169-187: subtotal of
price times quantity, free shipping at subtotal 200, otherwise fee 60. -/
def calculate_cart_totals (cart_items : List CartItem) : CartTotals :=
  let subtotal := (cart_items.map (fun i => i.price * i.quantity)).sum
  let shipping_fee := if subtotal ≥ 200 then 0 else 60
  { subtotal := subtotal, shipping_fee := shipping_fee, total := subtotal + shipping_fee }

/-- The feature toggle file contents consumed by `load_toggles`
(src/app.py lines 89-108), already resolved to its two boolean fields
with their safe defaults. -/
structure Toggles where
  enable_cod : Bool
  enable_free_shipping_nudge : Bool
deriving DecidableEq

/-- The form fields the checkout route reads. `payment_method` already has
the `request.form.get` default (`credit_card`) applied; the card fields are
`none` when absent. `delivery_method` and `invoice_type` are echoed
display strings and are omitted. -/
structure CheckoutForm where
  payment_method : String
  card_number : Option String
  expiry_date : Option String
  cvv : Option String
deriving DecidableEq

/-- Python truthiness of an optional form string: `not card_number` is
true when the field is absent or the empty string. -/
def truthy : Option String → Bool
  | none => false
  | some s => !(s == "")

/-- The 403 response for cash-on-delivery while the toggle is off
(src/app.py lines 712-717). -/
def cod_disabled_response : JsonResponse :=
  { http_status := 403, status := "error"
    message := "貨到付款功能目前不可用"
    error_code := some "FEATURE_DISABLED" }

/-- The 400 response for incomplete credit-card fields (src/app.py lines
720-724). -/
def missing_card_response : JsonResponse :=
  { http_status := 400, status := "error", message := "請填寫完整的信用卡資訊" }

/-- The 400 response for an unknown payment method (src/app.py lines
729-732). -/
def invalid_method_response : JsonResponse :=
  { http_status := 400, status := "error", message := "無效的付款方式" }

/-- The success response of the checkout route (src/app.py lines 747-751);
the echoed `order` object is display data and is omitted. -/
def checkout_success_response (payment_display : String) : JsonResponse :=
  { http_status := 200, status := "success"
    message := "訂單已成功建立！付款方式：" ++ payment_display }

/-- The body of the `checkout` route (src/app.py lines 691-757), inside
`@monitor_request`. The whole body sits in a try/except that converts any
internal exception into a returned 500 response (lines 753-757); the
parameter `internalExn` injects such an exception (it can only arise from
the collaborators called before the validation branches, so it is placed
at the head of the try block). Note that the body therefore never raises:
its result is always `Except.ok`. -/
def checkout_body (toggles : Toggles) (form : CheckoutForm)
    (internalExn : Option String) : Handler := fun st =>
  match internalExn with
  | some e =>
      (st, .ok { http_status := 500, status := "error", message := "系統錯誤: " ++ e })
  | none =>
      let cart_data := calculate_cart_totals mock_cart
      if form.payment_method == "cod" && !toggles.enable_cod then
        (st, .ok cod_disabled_response)
      else if form.payment_method == "credit_card" &&
          (!(truthy form.card_number) || !(truthy form.expiry_date) || !(truthy form.cvv)) then
        (st, .ok missing_card_response)
      else if form.payment_method == "credit_card" || form.payment_method == "cod" then
        ({ st with metrics := { st.metrics with
              orders_created := st.metrics.orders_created + 1
              total_sales := st.metrics.total_sales + cart_data.total } },
          .ok (checkout_success_response
            (if form.payment_method == "credit_card" then "信用卡" else "貨到付款")))
      else
        (st, .ok invalid_method_response)

/-- The figures computed by the `/metrics` endpoint. Time-derived fields
(`uptime_seconds`, `throughput`, `last_request`) depend on the wall clock
and are omitted; the remaining fields are returned exact, before the
display-level `round(x, n)` formatting. -/
structure MetricsReport where
  system_health : ℚ
  avg_response_time : ℚ
  error_rate : ℚ
  total_orders : Nat
  total_sales : Nat
  total_requests : Nat
  error_requests : Nat
  monthly_remaining : ℚ
  quarterly_remaining : ℚ
  annual_remaining : ℚ
  availability : ℚ
  latency_status : String
deriving DecidableEq

/-- Function `get_metrics` from src/app.py lines 366-434. Note that the function
reads only the `metrics` counters: `fault_state` does not appear in it. -/
def get_metrics (m : Metrics) : MetricsReport :=
  let avg_response_time : ℚ :=
    if m.total_requests > 0 then m.total_response_time / (m.total_requests : ℚ) * 1000 else 0
  let error_rate : ℚ :=
    if m.total_requests > 0 then (m.error_requests : ℚ) / (m.total_requests : ℚ) * 100 else 0
  let health0 : ℚ := 100 - error_rate * 5
  let health1 : ℚ :=
    if avg_response_time > 200 then health0 - ((avg_response_time - 200) / 100) * 2 else health0
  let system_health : ℚ := max 0 (min 100 health1)
  let availability : ℚ := max 0 (100 - error_rate)
  let monthly_budget_used : ℚ := min 100 (error_rate * 10)
  let quarterly_budget_used : ℚ := min 100 (error_rate * 5)
  let annual_budget_used : ℚ := min 100 (error_rate * 2)
  { system_health := system_health
    avg_response_time := avg_response_time
    error_rate := error_rate
    total_orders := m.orders_created
    total_sales := m.total_sales
    total_requests := m.total_requests
    error_requests := m.error_requests
    monthly_remaining := max 0 (100 - monthly_budget_used)
    quarterly_remaining := max 0 (100 - quarterly_budget_used)
    annual_remaining := max 0 (100 - annual_budget_used)
    availability := availability
    latency_status :=
      if avg_response_time < 200 then "healthy"
      else if avg_response_time < 500 then "warning" else "critical" }

/-- The `/metrics` endpoint applied to the full state; it consults only
the counters (no fault flag reaches it) and mutates nothing. -/
def metrics_endpoint (st : SysState) : SysState × MetricsReport :=
  (st, get_metrics st.metrics)

/-- The log list built by `get_logs` (src/app.py lines 302-363): the last
20 stored entries newest first, a synthetic status line, then alert and
error-rate entries inserted at the front. Numeric interpolation inside the
messages is display formatting; the fixed message prefixes are kept. -/
def build_logs (st : SysState) : List LogEntry :=
  let error_rate : ℚ :=
    if st.metrics.total_requests > 0 then
      (st.metrics.error_requests : ℚ) / (st.metrics.total_requests : ℚ) * 100
    else 0
  let base : List LogEntry :=
    (st.logs.drop (st.logs.length - 20)).reverse ++
      [{ level := "info"
         message := "[STATUS] Requests: " ++ toString st.metrics.total_requests ++
           " | Errors: " ++ toString st.metrics.error_requests
         category := "system" }]
  let withDb : List LogEntry :=
    if st.fault.database_down then
      { level := "error"
        message := "[ALERT] DATABASE IS DOWN - All database operations will fail!"
        category := "system" } :: base
    else base
  let withLatency : List LogEntry :=
    if st.fault.high_latency then
      { level := "warning"
        message := "[ALERT] High latency injection active: +" ++
          toString st.fault.latency_ms ++ "ms per request"
        category := "system" } :: withDb
    else withDb
  if error_rate > 5 then
    { level := "error"
      message := "[CRITICAL] Error rate exceeds SLO threshold (5%)!"
      category := "system" } :: withLatency
  else if error_rate > 1 then
    { level := "warning", message := "[WARNING] Elevated error rate"
      category := "system" } :: withLatency
  else withLatency

/-- The `/logs` endpoint: a pure read of the state. -/
def logs_endpoint (st : SysState) : SysState × List LogEntry :=
  (st, build_logs st)

/-- The payload of `/chart-data`; the display-only timestamp list is
omitted and `current_error_rate` is exact (the source rounds it to two
decimals for display). -/
structure ChartData where
  response_times : List ℚ
  error_flags : List Bool
  current_error_rate : ℚ
  data_points : Nat
deriving DecidableEq

/-- Function `get_chart_data` from src/app.py lines 565-582, over the history
buffer; an empty window uses divisor 1 (the defensive denominator). -/
def get_chart_data (hist : List Sample) : ChartData :=
  let error_count := (hist.filter (fun r => r.is_error)).length
  let total_count := if hist.isEmpty then 1 else hist.length
  { response_times := hist.map (fun r => r.value)
    error_flags := hist.map (fun r => r.is_error)
    current_error_rate := (error_count : ℚ) / (total_count : ℚ) * 100
    data_points := hist.length }

/-- The `/chart-data` endpoint: a pure read of the history buffer. -/
def chart_data_endpoint (st : SysState) : SysState × ChartData :=
  (st, get_chart_data st.history)

/-- Health and status of one named service in the `/services` payload;
the per-service illustrative attributes (request counts, hit rates,
memory figures) are display data and are omitted. -/
structure ServiceInfo where
  health : ℚ
  status : String
deriving DecidableEq

/-- Helper `get_status` nested in `get_services` (src/app.py lines 620-629). -/
def get_status (health : ℚ) (is_down : Bool) : String :=
  if is_down then "degraded"
  else if health ≥ 95 then "healthy"
  else if health ≥ 80 then "warning"
  else "degraded"

/-- The `/services` payload: the seven named services. -/
structure ServicesView where
  load_balancer : ServiceInfo
  api_gateway : ServiceInfo
  user_service : ServiceInfo
  order_service : ServiceInfo
  payment_service : ServiceInfo
  database : ServiceInfo
  redis_cache : ServiceInfo
deriving DecidableEq

/-- Function `get_services` from src/app.py lines 585-688: a base health score from
the counters, fixed per-service penalty offsets, a latency penalty from
the injected latency, and hard degradation of the database-dependent
services when `database_down` is active. Health values are exact (the
source rounds to one decimal for display). -/
def get_services (m : Metrics) (f : FaultState) : ServicesView :=
  let error_rate : ℚ :=
    if m.total_requests > 0 then (m.error_requests : ℚ) / (m.total_requests : ℚ) * 100 else 0
  let avg_response_time : ℚ :=
    if m.total_requests > 0 then m.total_response_time / (m.total_requests : ℚ) * 1000 else 0
  let bh0 : ℚ := 100 - error_rate * 2
  let bh1 : ℚ :=
    if avg_response_time > 200 then bh0 - ((avg_response_time - 200) / 100) * 1 else bh0
  let base_health : ℚ := max 0 (min 100 bh1)
  let db_is_down := f.database_down
  let db_health : ℚ := if db_is_down then 0 else base_health - 1
  let latency_penalty : ℚ := if f.high_latency then (f.latency_ms : ℚ) / 100 else 0
  { load_balancer :=
      { health := max 0 (base_health - latency_penalty)
        status := get_status (base_health - latency_penalty) false }
    api_gateway :=
      { health := max 0 (base_health - 1 - latency_penalty)
        status := get_status (base_health - 1 - latency_penalty) false }
    user_service :=
      { health := max 0 (base_health - 2 - (if db_is_down then 50 else 0))
        status := if db_is_down then "warning" else get_status (base_health - 2) false }
    order_service :=
      { health := max 0 (base_health - 3 - (if db_is_down then 50 else 0))
        status := if db_is_down then "degraded" else get_status (base_health - 3) false }
    payment_service :=
      { health := max 0 (base_health - 4 - (if db_is_down then 50 else 0))
        status := if db_is_down then "degraded" else get_status (base_health - 4) false }
    database := { health := db_health, status := get_status db_health db_is_down }
    redis_cache := { health := base_health, status := get_status base_health false } }

/-- The `/services` endpoint: a pure read of counters and fault flags. -/
def services_endpoint (st : SysState) : SysState × ServicesView :=
  (st, get_services st.metrics st.fault)

/-- Function `inject_fault` from src/app.py lines 441-494 (the `/fault/inject`
route). `fault_type` defaults to `database_down` and `latency_ms` to 2000
at the JSON-parsing step, so they arrive here resolved. -/
def inject_fault (fault_type : String) (latency_ms : Nat) (st : SysState) :
    SysState × JsonResponse :=
  if fault_type == "database_down" then
    ({ st with
        fault := { st.fault with database_down := true }
        logs := add_log st.logs
          { level := "error"
            message := "🔴 FAULT INJECTED: Database connection failure simulated"
            category := "system" } },
      { http_status := 200, status := "success"
        message := "Database failure injected. All database operations will fail." })
  else if fault_type == "high_latency" then
    ({ st with
        fault := { st.fault with high_latency := true, latency_ms := latency_ms }
        logs := add_log st.logs
          { level := "warning"
            message := "🟡 FAULT INJECTED: High latency simulated"
            category := "system" } },
      { http_status := 200, status := "success"
        message := "High latency injected for all requests." })
  else
    (st, { http_status := 400, status := "error"
           message := "Unknown fault type: " ++ fault_type ++
             ". Supported: database_down, high_latency" })

/-- Function `recover_fault` from src/app.py lines 497-543 (the `/fault/recover`
route): clears each matching active flag, accumulating the list of faults
actually cleared; clearing `high_latency` also resets `latency_ms` to 0;
an empty list yields the informational response. -/
def recover_fault (fault_type : String) (st : SysState) : SysState × JsonResponse :=
  let step1 :=
    if (fault_type == "database_down" || fault_type == "all") && st.fault.database_down then
      ({ st.fault with database_down := false },
        add_log st.logs
          { level := "success", message := "🟢 RECOVERY: Database connection restored"
            category := "system" },
        ["database_down"])
    else (st.fault, st.logs, ([] : List String))
  let step2 :=
    if (fault_type == "high_latency" || fault_type == "all") && step1.1.high_latency then
      ({ step1.1 with high_latency := false, latency_ms := 0 },
        add_log step1.2.1
          { level := "success", message := "🟢 RECOVERY: Normal latency restored"
            category := "system" },
        step1.2.2 ++ ["high_latency"])
    else step1
  let st2 : SysState := { st with fault := step2.1, logs := step2.2.1 }
  if step2.2.2.isEmpty then
    (st2, { http_status := 200, status := "info"
            message := "No active faults to recover from." })
  else
    (st2, { http_status := 200, status := "success"
            message := "Recovered from faults: " ++ String.intercalate ", " step2.2.2
            recovered_faults := step2.2.2 })

/-- The payload of `/fault/status`. -/
structure FaultStatusView where
  status : String
  fault_state : FaultState
  is_degraded : Bool
  active_faults : List String
deriving DecidableEq

/-- Function `fault_status` from src/app.py lines 546-562. -/
def fault_status (f : FaultState) : FaultStatusView :=
  { status := "success"
    fault_state := f
    is_degraded := f.database_down || f.high_latency
    active_faults :=
      (if f.database_down then ["database_down"] else []) ++
        (if f.high_latency then ["high_latency"] else []) }

/-- The `/fault/status` endpoint: a pure read of the fault flags. -/
def fault_status_endpoint (st : SysState) : SysState × FaultStatusView :=
  (st, fault_status st.fault)

/-- A handler that renders a page and returns it (the instrumented
`index`, `payment`, `success` and `checkout-options` routes): no shared
state is touched and the given response is returned. -/
def plain_handler (resp : JsonResponse) : Handler := fun st => (st, .ok resp)

/-- A handler whose body raises the exception `e`. -/
def raising_handler (e : String) : Handler := fun st => (st, .error e)

/-- A generic 200 page response standing for a rendered template. -/
def ok_response : JsonResponse :=
  { http_status := 200, status := "success", message := "page" }

/-- One operation on the shared state: an instrumented request through
`monitor_request` (with the handler running time and wrapper overhead of
that call), or a fault-control call. -/
inductive Op where
  | plain (resp : JsonResponse) (handlerTime overhead : ℚ)
  | raising (e : String) (handlerTime overhead : ℚ)
  | checkoutReq (toggles : Toggles) (form : CheckoutForm) (internalExn : Option String)
      (handlerTime overhead : ℚ)
  | injectOp (fault_type : String) (latency_ms : Nat)
  | recoverOp (fault_type : String)
deriving DecidableEq

/-- Execute one operation, keeping the resulting state. -/
def run_op (st : SysState) (op : Op) : SysState :=
  match op with
  | .plain resp ht ov => (monitor_request (plain_handler resp) ht ov st).1
  | .raising e ht ov => (monitor_request (raising_handler e) ht ov st).1
  | .checkoutReq tg form i ht ov => (monitor_request (checkout_body tg form i) ht ov st).1
  | .injectOp ft lat => (inject_fault ft lat st).1
  | .recoverOp ft => (recover_fault ft st).1

/-- Execute a sequence of operations from a starting state. -/
def run_ops (st : SysState) (ops : List Op) : SysState :=
  ops.foldl run_op st

/-- The safe default toggle values used when the toggle file is absent or
malformed (src/app.py lines 105 and 108). -/
def default_toggles : Toggles :=
  { enable_cod := false, enable_free_shipping_nudge := false }

/-- A checkout form selecting cash on delivery with no card fields. -/
def cod_form : CheckoutForm :=
  { payment_method := "cod", card_number := none, expiry_date := none, cvv := none }

/-- A fully filled credit-card checkout form. -/
def c3_form : CheckoutForm :=
  { payment_method := "credit_card", card_number := some "4242424242424242"
    expiry_date := some "12/30", cvv := some "123" }

/-- The wrapped checkout call of the C3 counterexample: an internal
exception is raised inside the checkout body, on a fresh state with no
faults active. -/
def c3_result : SysState × Except String JsonResponse :=
  monitor_request (checkout_body default_toggles c3_form (some "boom")) 0 0 initial_state

/-- Three quick successful page requests, then a database outage is
injected: a reachable state whose snapshot the C1 claim constrains. -/
def c1_ops : List Op :=
  [Op.plain ok_response 0 0, Op.plain ok_response 0 0, Op.plain ok_response 0 0,
    Op.injectOp "database_down" 2000]

/-- The state reached by `c1_ops` from the initial state. -/
def c1_state : SysState := run_ops initial_state c1_ops

/-- Spec formula for `error_rate_pct` (section 4.6 of the spec), written
without its `database_down` forcing clause, for comparison with
`get_metrics`. -/
def error_rate_pct_formula (m : Metrics) : ℚ :=
  if m.total_requests > 0 then (m.error_requests : ℚ) / (m.total_requests : ℚ) * 100 else 0

/-- Spec formula for `system_health` (section 4.6 of the spec), written
without its `database_down` forcing clause, for comparison with
`get_metrics`. -/
def system_health_formula (m : Metrics) : ℚ :=
  let er := error_rate_pct_formula m
  let avg : ℚ :=
    if m.total_requests > 0 then m.total_response_time / (m.total_requests : ℚ) * 1000 else 0
  let h0 := 100 - er * 5
  let h1 := if avg > 200 then h0 - ((avg - 200) / 100) * 2 else h0
  max 0 (min 100 h1)

/-- The scenario of claim C8: ten successful 50 ms calls, a database
outage injection, then one more instrumented call. -/
def c8_ops : List Op :=
  List.replicate 10 (Op.plain ok_response (1/20) 0) ++
    [Op.injectOp "database_down" 2000, Op.plain ok_response 0 0]

/-- The state reached by `c8_ops` from the initial state. -/
def c8_state : SysState := run_ops initial_state c8_ops

/-- A fresh state on which only the `database_down` fault is active. -/
def db_down_state : SysState :=
  { initial_state with
      fault := { database_down := true, high_latency := false, latency_ms := 0 } }

/-- A mixed concrete operation sequence exercising success, handler
exception, outage, recovery and checkout. -/
def c4_ops : List Op :=
  [Op.plain ok_response 0 0, Op.raising "boom" 0 0,
    Op.injectOp "database_down" 2000, Op.plain ok_response 0 0,
    Op.recoverOp "all",
    Op.checkoutReq default_toggles cod_form none 0 0]

/-- Twenty-five identical samples, more than the history capacity. -/
def c5_samples : List Sample := List.replicate 25 { value := 1, is_error := false }

/-- A fresh state with both faults active (injected latency 250 ms). -/
def slow_db_down_state : SysState :=
  { initial_state with
      fault := { database_down := true, high_latency := true, latency_ms := 250 } }

/-- A fresh state with only the latency fault active at 500 ms. -/
def slow_state : SysState :=
  { initial_state with
      fault := { database_down := false, high_latency := true, latency_ms := 500 } }

/-- A fresh state with both faults active (injected latency 500 ms). -/
def both_faults_state : SysState :=
  { initial_state with
      fault := { database_down := true, high_latency := true, latency_ms := 500 } }

/-- The checkout body never changes the request counters and never raises:
every branch, including the internal-exception branch, returns a response,
and only `orders_created` and `total_sales` are ever updated. -/
theorem checkout_body_requests (tg : Toggles) (form : CheckoutForm)
    (i : Option String) (st : SysState) :
    ((checkout_body tg form i st).1.metrics.total_requests = st.metrics.total_requests) ∧
    ((checkout_body tg form i st).1.metrics.error_requests = st.metrics.error_requests) ∧
    ∀ e, (checkout_body tg form i st).2 ≠ .error e := by
  unfold checkout_body
  cases i <;> simp <;> split_ifs <;> simp

/-- Every single operation adds exactly one to `total_requests` when it is
an instrumented request and zero otherwise, and adds at most that much to
`error_requests`; stated as one inequality usable by `omega`. -/
theorem run_op_counters (st : SysState) (op : Op) :
    (run_op st op).metrics.error_requests + st.metrics.total_requests ≤
      st.metrics.error_requests + (run_op st op).metrics.total_requests := by
  cases op with
  | plain resp ht ov =>
      simp only [run_op, monitor_request, plain_handler]
      split <;> ((try simp) <;> omega)
  | raising e ht ov =>
      simp only [run_op, monitor_request, raising_handler]
      split <;> ((try simp) <;> omega)
  | checkoutReq tg form i ht ov =>
      simp only [run_op, monitor_request]
      split
      · simp <;> omega
      · rcases hcb : checkout_body tg form i
            { st with metrics := { st.metrics with total_requests := st.metrics.total_requests + 1 } }
          with ⟨st2, r⟩
        have hc := checkout_body_requests tg form i
          { st with metrics := { st.metrics with total_requests := st.metrics.total_requests + 1 } }
        rw [hcb] at hc
        cases r with
        | ok v => simp_all <;> omega
        | error e2 => exact absurd rfl (hc.2.2 e2)
  | injectOp ft lat =>
      simp only [run_op, inject_fault]
      split_ifs <;> simp
  | recoverOp ft =>
      simp only [run_op, recover_fault]
      split_ifs <;> simp

/-- One append step of the history buffer: starting within capacity, the
result is the suffix of the appended list that fits the capacity, and
stays within capacity. -/
theorem push_history_step (l : List Sample) (s : Sample)
    (h : l.length ≤ MAX_HISTORY_POINTS) :
    push_history l s = (l ++ [s]).drop ((l ++ [s]).length - MAX_HISTORY_POINTS) ∧
    (push_history l s).length ≤ MAX_HISTORY_POINTS := by
  unfold MAX_HISTORY_POINTS at h
  simp only [push_history, MAX_HISTORY_POINTS]
  split
  · rename_i hgt
    simp only [List.length_append, List.length_cons, List.length_nil] at hgt ⊢
    have h20 : l.length = 20 := by omega
    constructor
    · rw [show l.length + (0 + 1) - 20 = 1 by omega, List.drop_one]
    · simp [List.length_tail, h20]
  · rename_i hle
    simp only [List.length_append, List.length_cons, List.length_nil] at hle ⊢
    constructor
    · rw [show l.length + (0 + 1) - 20 = 0 by omega, List.drop_zero]
    · omega

/-- C1, original claim refuted: after three successful requests and a
`database_down` injection (a reachable snapshot with the outage flag set),
`get_metrics` reports `error_rate = 0` and `system_health = 100`, not the
forced degraded extremes 100 and 0 that the claim requires. -/
theorem c1_counterexample :
    c1_state.fault.database_down = true ∧
    (get_metrics c1_state.metrics).error_rate = 0 ∧
    (get_metrics c1_state.metrics).system_health = 100 := by
  norm_num [c1_state, c1_ops, run_ops, run_op, monitor_request, plain_handler,
    inject_fault, injected_delay, push_history, add_log, initial_state, get_metrics,
    MAX_HISTORY_POINTS]

/-- C1, amended: `get_metrics` derives `error_rate` and `system_health`
from the accumulated counters alone, following the spec formulas with no
`database_down` override; the report is unchanged under any fault state. -/
theorem c1_amended (st : SysState) (f : FaultState) :
    get_metrics { st with fault := f }.metrics = get_metrics st.metrics ∧
    (get_metrics st.metrics).error_rate = error_rate_pct_formula st.metrics ∧
    (get_metrics st.metrics).system_health = system_health_formula st.metrics := by
  refine ⟨rfl, rfl, ?_⟩
  simp [get_metrics, system_health_formula, error_rate_pct_formula]

/-- C2: while `database_down` is active, an instrumented call does not
invoke the wrapped handler (the result is the same for any two handlers),
returns the fixed 503 `DB_CONNECTION_FAILED` response, increments
`total_requests` and `error_requests` by one each, appends an error sample
to the history and an error entry to the log. -/
theorem monitor_request_database_down
    (h1 h2 : Handler) (ht1 ht2 ov : ℚ) (st : SysState)
    (hdb : st.fault.database_down = true) :
    monitor_request h1 ht1 ov st = monitor_request h2 ht2 ov st ∧
    (monitor_request h1 ht1 ov st).2 = .ok db_down_response ∧
    (monitor_request h1 ht1 ov st).1.metrics.total_requests = st.metrics.total_requests + 1 ∧
    (monitor_request h1 ht1 ov st).1.metrics.error_requests = st.metrics.error_requests + 1 ∧
    (monitor_request h1 ht1 ov st).1.history =
      push_history st.history { value := (injected_delay st.fault + ov) * 1000, is_error := true } ∧
    (monitor_request h1 ht1 ov st).1.logs = add_log st.logs db_down_log := by
  simp [monitor_request, hdb]

/-- Witness for C2 at a concrete state with the outage active. -/
theorem monitor_request_database_down_witness :
    db_down_state.fault.database_down = true ∧
    (monitor_request (plain_handler ok_response) 1 0 db_down_state =
        monitor_request (raising_handler "x") 2 0 db_down_state ∧
      (monitor_request (plain_handler ok_response) 1 0 db_down_state).2 =
        .ok db_down_response ∧
      (monitor_request (plain_handler ok_response) 1 0 db_down_state).1.metrics.total_requests =
        db_down_state.metrics.total_requests + 1 ∧
      (monitor_request (plain_handler ok_response) 1 0 db_down_state).1.metrics.error_requests =
        db_down_state.metrics.error_requests + 1 ∧
      (monitor_request (plain_handler ok_response) 1 0 db_down_state).1.history =
        push_history db_down_state.history
          { value := (injected_delay db_down_state.fault + 0) * 1000, is_error := true } ∧
      (monitor_request (plain_handler ok_response) 1 0 db_down_state).1.logs =
        add_log db_down_state.logs db_down_log) :=
  ⟨rfl, monitor_request_database_down (plain_handler ok_response) (raising_handler "x")
    1 2 0 db_down_state rfl⟩

/-- C3, original claim refuted: a failure inside the checkout body (on a
fresh state with no faults active) is caught by the checkout route itself
and turned into a returned 500 response, so `error_requests` stays 0, no
log entry is appended, and the wrapper even records the call as a
non-error sample. -/
theorem c3_counterexample :
    c3_result.1.metrics.error_requests = 0 ∧
    c3_result.1.logs = [] ∧
    c3_result.2 = .ok { http_status := 500, status := "error", message := "系統錯誤: boom" } ∧
    c3_result.1.history.map Sample.is_error = [false] := by
  refine ⟨?_, ?_, ?_, ?_⟩ <;>
    norm_num [c3_result, c3_form, default_toggles, monitor_request, checkout_body,
      injected_delay, push_history, initial_state, MAX_HISTORY_POINTS] <;> decide

/-- C3, amended: the error paths of the wrapper itself (a handler that
raises) increment `error_requests` and append a log entry before the
exception is propagated; but a failure inside the checkout body is caught
locally and returned as a 500 response, bypassing the error-recording
path: `error_requests` and the log are unchanged. -/
theorem c3_amended (e : String) (ht ov : ℚ) (st : SysState) (tg : Toggles)
    (form : CheckoutForm) (hdb : st.fault.database_down = false) :
    ((monitor_request (raising_handler e) ht ov st).1.metrics.error_requests =
      st.metrics.error_requests + 1) ∧
    ((monitor_request (raising_handler e) ht ov st).1.logs =
      add_log st.logs
        { level := "error", message := "Request failed: " ++ e, category := "error" }) ∧
    ((monitor_request (raising_handler e) ht ov st).2 = .error e) ∧
    ((monitor_request (checkout_body tg form (some e)) ht ov st).1.metrics.error_requests =
      st.metrics.error_requests) ∧
    ((monitor_request (checkout_body tg form (some e)) ht ov st).1.logs = st.logs) ∧
    ((monitor_request (checkout_body tg form (some e)) ht ov st).2 =
      .ok { http_status := 500, status := "error", message := "系統錯誤: " ++ e }) := by
  refine ⟨?_, ?_, ?_, ?_, ?_, ?_⟩ <;>
    simp [monitor_request, raising_handler, checkout_body, hdb]

/-- Witness for the amended C3 at concrete inputs. -/
theorem c3_amended_witness :
    initial_state.fault.database_down = false ∧
    (((monitor_request (raising_handler "boom") 0 0 initial_state).1.metrics.error_requests =
        initial_state.metrics.error_requests + 1) ∧
      ((monitor_request (raising_handler "boom") 0 0 initial_state).1.logs =
        add_log initial_state.logs
          { level := "error", message := "Request failed: " ++ "boom", category := "error" }) ∧
      ((monitor_request (raising_handler "boom") 0 0 initial_state).2 = .error "boom") ∧
      ((monitor_request (checkout_body default_toggles c3_form (some "boom")) 0 0
          initial_state).1.metrics.error_requests = initial_state.metrics.error_requests) ∧
      ((monitor_request (checkout_body default_toggles c3_form (some "boom")) 0 0
          initial_state).1.logs = initial_state.logs) ∧
      ((monitor_request (checkout_body default_toggles c3_form (some "boom")) 0 0
          initial_state).2 =
        .ok { http_status := 500, status := "error", message := "系統錯誤: " ++ "boom" })) :=
  ⟨rfl, c3_amended "boom" 0 0 initial_state default_toggles c3_form rfl⟩

/-- C4: over every sequence of operations (successful, faulted or raising
instrumented requests, fault injections and recoveries), the invariant
`error_requests ≤ total_requests` is preserved; applied at every prefix it
holds after every operation, and it holds from the initial state where
both counters are 0. -/
theorem c4_invariant (ops : List Op) (st : SysState)
    (h : st.metrics.error_requests ≤ st.metrics.total_requests) :
    (run_ops st ops).metrics.error_requests ≤ (run_ops st ops).metrics.total_requests := by
  induction ops generalizing st with
  | nil => exact h
  | cons op rest ih =>
      simp only [run_ops, List.foldl_cons]
      have hstep := run_op_counters st op
      exact ih (run_op st op) (by omega)

/-- Witness for C4 on a concrete mixed operation sequence from the
initial state. -/
theorem c4_invariant_witness :
    initial_state.metrics.error_requests ≤ initial_state.metrics.total_requests ∧
    ((run_ops initial_state c4_ops).metrics.error_requests ≤
      (run_ops initial_state c4_ops).metrics.total_requests) :=
  ⟨by decide, c4_invariant c4_ops initial_state (by decide)⟩

/-- C5: folding any sequence of appends into the history from any state
within capacity, the history length never exceeds `MAX_HISTORY_POINTS`
(= 20), and the retained samples are exactly the suffix of the arrival
sequence that fits: the oldest samples are evicted first (FIFO). Because
the statement quantifies over every sample sequence, it applies to every
prefix, hence after every append. -/
theorem c5_history_bounded (init : List Sample) (samples : List Sample)
    (hinit : init.length ≤ MAX_HISTORY_POINTS) :
    (samples.foldl push_history init).length ≤ MAX_HISTORY_POINTS ∧
    samples.foldl push_history init =
      (init ++ samples).drop ((init ++ samples).length - MAX_HISTORY_POINTS) := by
  induction samples generalizing init with
  | nil =>
      refine ⟨hinit, ?_⟩
      have h0 : (init ++ ([] : List Sample)).length - MAX_HISTORY_POINTS = 0 := by
        unfold MAX_HISTORY_POINTS at hinit ⊢
        simp
        omega
      rw [h0, List.drop_zero, List.append_nil]
      rfl
  | cons s ss ih =>
      have hstep := push_history_step init s hinit
      have hih := ih (push_history init s) hstep.2
      refine ⟨hih.1, ?_⟩
      rw [List.foldl_cons, hih.2, hstep.1]
      have hk : (init ++ [s]).length - MAX_HISTORY_POINTS ≤ (init ++ [s]).length := by
        omega
      rw [← List.drop_append_of_le_length hk, List.drop_drop]
      have hassoc : (init ++ [s]) ++ ss = init ++ s :: ss := by
        simp
      rw [hassoc]
      congr 1
      unfold MAX_HISTORY_POINTS at hinit ⊢
      simp only [List.length_drop, List.length_append, List.length_cons, List.length_nil]
      omega

/-- Witness for C5: 25 samples appended to an empty history. -/
theorem c5_history_bounded_witness :
    ([] : List Sample).length ≤ MAX_HISTORY_POINTS ∧
    ((c5_samples.foldl push_history []).length ≤ MAX_HISTORY_POINTS ∧
      c5_samples.foldl push_history [] =
        (([] : List Sample) ++ c5_samples).drop
          ((([] : List Sample) ++ c5_samples).length - MAX_HISTORY_POINTS)) :=
  ⟨by decide, c5_history_bounded [] c5_samples (by decide)⟩

/-- C6: the injected latency is applied before the `database_down`
short-circuit: with both faults active the recorded error sample covers
the injected delay, so its duration is at least `latency_ms`; and a
successful call under an injected latency of 500 ms has elapsed time at
least 500 ms. -/
theorem c6_latency_applied_first
    (st1 st2 : SysState) (h : Handler) (resp : JsonResponse) (ht1 ht2 ov1 ov2 : ℚ)
    (hhl1 : st1.fault.high_latency = true) (hpos1 : 0 < st1.fault.latency_ms)
    (hdb1 : st1.fault.database_down = true) (hov1 : 0 ≤ ov1)
    (hhl2 : st2.fault.high_latency = true) (hlat2 : st2.fault.latency_ms = 500)
    (hdb2 : st2.fault.database_down = false) (hht2 : 0 ≤ ht2) (hov2 : 0 ≤ ov2) :
    ((monitor_request h ht1 ov1 st1).1.history =
        push_history st1.history
          { value := (injected_delay st1.fault + ov1) * 1000, is_error := true }) ∧
    ((st1.fault.latency_ms : ℚ) ≤ (injected_delay st1.fault + ov1) * 1000) ∧
    ((monitor_request (plain_handler resp) ht2 ov2 st2).1.history =
        push_history st2.history
          { value := (injected_delay st2.fault + ht2 + ov2) * 1000, is_error := false }) ∧
    (500 ≤ (injected_delay st2.fault + ht2 + ov2) * 1000) := by
  refine ⟨?_, ?_, ?_, ?_⟩
  · simp [monitor_request, hdb1]
  · rw [injected_delay, if_pos ⟨hhl1, hpos1⟩]
    have : 0 ≤ ov1 * 1000 := by positivity
    have hexp : ((st1.fault.latency_ms : ℚ) / 1000 + ov1) * 1000 =
        (st1.fault.latency_ms : ℚ) + ov1 * 1000 := by ring
    rw [hexp]
    linarith
  · simp [monitor_request, hdb2, plain_handler]
  · rw [injected_delay, if_pos ⟨hhl2, by omega⟩, hlat2]
    push_cast
    nlinarith [mul_nonneg (add_nonneg hht2 hov2) (by norm_num : (0:ℚ) ≤ 1000)]

/-- Witness for C6 at concrete fault states (latency 250 ms with the
outage, and latency 500 ms alone). -/
theorem c6_latency_applied_first_witness :
    slow_db_down_state.fault.high_latency = true ∧
    0 < slow_db_down_state.fault.latency_ms ∧
    slow_db_down_state.fault.database_down = true ∧
    (0 : ℚ) ≤ 0 ∧
    slow_state.fault.high_latency = true ∧
    slow_state.fault.latency_ms = 500 ∧
    slow_state.fault.database_down = false ∧
    (((monitor_request (raising_handler "y") 0 0 slow_db_down_state).1.history =
        push_history slow_db_down_state.history
          { value := (injected_delay slow_db_down_state.fault + 0) * 1000, is_error := true }) ∧
      ((slow_db_down_state.fault.latency_ms : ℚ) ≤
        (injected_delay slow_db_down_state.fault + 0) * 1000) ∧
      ((monitor_request (plain_handler ok_response) 0 0 slow_state).1.history =
        push_history slow_state.history
          { value := (injected_delay slow_state.fault + 0 + 0) * 1000, is_error := false }) ∧
      (500 ≤ (injected_delay slow_state.fault + 0 + 0) * 1000)) :=
  ⟨rfl, by decide, rfl, le_refl 0, rfl, rfl, rfl,
    c6_latency_applied_first slow_db_down_state slow_state (raising_handler "y") ok_response
      0 0 0 0 rfl (by decide) rfl (le_refl 0) rfl rfl rfl (le_refl 0) (le_refl 0)⟩

/-- C7: on any state satisfying the reachable-state invariant that
`latency_ms` is 0 whenever `high_latency` is off, `recover("all")` leaves
all fault flags cleared and `latency_ms = 0`, reports exactly the faults
that were active, and a second consecutive recover call of any fault type
reports an empty recovered list as an informational (not error) result and
leaves the state completely unchanged. -/
theorem c7_recover_all_idempotent (st : SysState) (ft : String)
    (hinv : st.fault.high_latency = false → st.fault.latency_ms = 0) :
    ((recover_fault "all" st).1.fault.database_down = false) ∧
    ((recover_fault "all" st).1.fault.high_latency = false) ∧
    ((recover_fault "all" st).1.fault.latency_ms = 0) ∧
    ((recover_fault "all" st).2.recovered_faults =
      (if st.fault.database_down then ["database_down"] else []) ++
        (if st.fault.high_latency then ["high_latency"] else [])) ∧
    ((recover_fault ft (recover_fault "all" st).1).2.status = "info") ∧
    ((recover_fault ft (recover_fault "all" st).1).2.status ≠ "error") ∧
    ((recover_fault ft (recover_fault "all" st).1).2.recovered_faults = []) ∧
    ((recover_fault ft (recover_fault "all" st).1).1 = (recover_fault "all" st).1) := by
  rcases hdb : st.fault.database_down <;> rcases hhl : st.fault.high_latency <;>
    simp_all [recover_fault]

/-- Witness for C7 at a concrete state with both faults active. -/
theorem c7_recover_all_idempotent_witness :
    (both_faults_state.fault.high_latency = false → both_faults_state.fault.latency_ms = 0) ∧
    (((recover_fault "all" both_faults_state).1.fault.database_down = false) ∧
      ((recover_fault "all" both_faults_state).1.fault.high_latency = false) ∧
      ((recover_fault "all" both_faults_state).1.fault.latency_ms = 0) ∧
      ((recover_fault "all" both_faults_state).2.recovered_faults =
        (if both_faults_state.fault.database_down then ["database_down"] else []) ++
          (if both_faults_state.fault.high_latency then ["high_latency"] else [])) ∧
      ((recover_fault "database_down"
          (recover_fault "all" both_faults_state).1).2.status = "info") ∧
      ((recover_fault "database_down"
          (recover_fault "all" both_faults_state).1).2.status ≠ "error") ∧
      ((recover_fault "database_down"
          (recover_fault "all" both_faults_state).1).2.recovered_faults = []) ∧
      ((recover_fault "database_down" (recover_fault "all" both_faults_state).1).1 =
        (recover_fault "all" both_faults_state).1)) :=
  ⟨by decide, c7_recover_all_idempotent both_faults_state "database_down" (by decide)⟩

/-- C8, original claim refuted: after ten successful 50 ms calls and one
call during an injected `database_down` fault, the counters are 11 and 1
as claimed, but `avg_response_time` is 500/11 ≈ 45.45 ms, not
approximately 50: the faulted call is excluded from the accumulated time
(numerator) yet still counted in `total_requests` (denominator). -/
theorem c8_counterexample :
    c8_state.metrics.total_requests = 11 ∧
    c8_state.metrics.error_requests = 1 ∧
    (get_metrics c8_state.metrics).avg_response_time = 500 / 11 ∧
    ¬(49 ≤ (get_metrics c8_state.metrics).avg_response_time ∧
        (get_metrics c8_state.metrics).avg_response_time ≤ 51) := by
  norm_num [c8_state, c8_ops, run_ops, run_op, monitor_request, plain_handler,
    inject_fault, injected_delay, push_history, add_log, initial_state, get_metrics,
    List.replicate, MAX_HISTORY_POINTS]

/-- C8, amended: in the same scenario the snapshot reports
`total_requests = 11`, `error_requests = 1`, `error_rate = 100/11 ≈ 9.09`
and `avg_response_time = 500/11 ≈ 45.45` (between 45 and 46), because the
faulted call enters the average denominator. -/
theorem c8_amended :
    c8_state.metrics.total_requests = 11 ∧
    c8_state.metrics.error_requests = 1 ∧
    (get_metrics c8_state.metrics).avg_response_time = 500 / 11 ∧
    45 ≤ (get_metrics c8_state.metrics).avg_response_time ∧
    (get_metrics c8_state.metrics).avg_response_time ≤ 46 ∧
    (get_metrics c8_state.metrics).error_rate = 100 / 11 ∧
    9 ≤ (get_metrics c8_state.metrics).error_rate ∧
    (get_metrics c8_state.metrics).error_rate ≤ 91 / 10 := by
  norm_num [c8_state, c8_ops, run_ops, run_op, monitor_request, plain_handler,
    inject_fault, injected_delay, push_history, add_log, initial_state, get_metrics,
    List.replicate, MAX_HISTORY_POINTS]

/-- C9: a checkout rejected by input validation (cash on delivery while
the toggle is off, missing credit-card fields, or an unknown payment
method) leaves `orders_created`, `total_sales` and `error_requests`
unchanged, while `total_requests` is still incremented and the appended
history sample has `is_error = false`. -/
theorem c9_validation_rejection_frame
    (tg : Toggles) (form : CheckoutForm) (ht ov : ℚ) (st : SysState)
    (hdb : st.fault.database_down = false)
    (hrej : (form.payment_method = "cod" ∧ tg.enable_cod = false) ∨
            (form.payment_method = "credit_card" ∧
              (truthy form.card_number = false ∨ truthy form.expiry_date = false ∨
                truthy form.cvv = false)) ∨
            (form.payment_method ≠ "cod" ∧ form.payment_method ≠ "credit_card")) :
    ((monitor_request (checkout_body tg form none) ht ov st).1.metrics.orders_created =
      st.metrics.orders_created) ∧
    ((monitor_request (checkout_body tg form none) ht ov st).1.metrics.total_sales =
      st.metrics.total_sales) ∧
    ((monitor_request (checkout_body tg form none) ht ov st).1.metrics.error_requests =
      st.metrics.error_requests) ∧
    ((monitor_request (checkout_body tg form none) ht ov st).1.metrics.total_requests =
      st.metrics.total_requests + 1) ∧
    ((monitor_request (checkout_body tg form none) ht ov st).1.history =
      push_history st.history
        { value := (injected_delay st.fault + ht + ov) * 1000, is_error := false }) := by
  rcases hrej with ⟨h1, h2⟩ | ⟨h1, h2⟩ | ⟨h1, h2⟩
  · simp [monitor_request, hdb, checkout_body, h1, h2]
  · rcases h2 with h2 | h2 | h2 <;> simp [monitor_request, hdb, checkout_body, h1, h2]
  · simp [monitor_request, hdb, checkout_body, h1, h2]

/-- Witness for C9: cash on delivery while the toggle is disabled, on the
fresh fault-free state. -/
theorem c9_validation_rejection_frame_witness :
    initial_state.fault.database_down = false ∧
    ((cod_form.payment_method = "cod" ∧ default_toggles.enable_cod = false) ∨
      (cod_form.payment_method = "credit_card" ∧
        (truthy cod_form.card_number = false ∨ truthy cod_form.expiry_date = false ∨
          truthy cod_form.cvv = false)) ∨
      (cod_form.payment_method ≠ "cod" ∧ cod_form.payment_method ≠ "credit_card")) ∧
    (((monitor_request (checkout_body default_toggles cod_form none) 0 0
        initial_state).1.metrics.orders_created = initial_state.metrics.orders_created) ∧
      ((monitor_request (checkout_body default_toggles cod_form none) 0 0
        initial_state).1.metrics.total_sales = initial_state.metrics.total_sales) ∧
      ((monitor_request (checkout_body default_toggles cod_form none) 0 0
        initial_state).1.metrics.error_requests = initial_state.metrics.error_requests) ∧
      ((monitor_request (checkout_body default_toggles cod_form none) 0 0
        initial_state).1.metrics.total_requests = initial_state.metrics.total_requests + 1) ∧
      ((monitor_request (checkout_body default_toggles cod_form none) 0 0
        initial_state).1.history =
        push_history initial_state.history
          { value := (injected_delay initial_state.fault + 0 + 0) * 1000
            is_error := false })) :=
  ⟨rfl, Or.inl ⟨rfl, rfl⟩,
    c9_validation_rejection_frame default_toggles cod_form 0 0 initial_state rfl
      (Or.inl ⟨rfl, rfl⟩)⟩

/-- C10: the observability and fault-control endpoints are outside the
instrumentation wrapper: even while `database_down` is active, none of
them changes the request counters, the accumulated response time or the
history buffer, none is short-circuited into the 503
`DB_CONNECTION_FAILED` response, the status endpoint still reports the
degradation, and recovery still works during the outage. -/
theorem c10_observability_unwrapped (st : SysState) (ft : String) (lat : Nat)
    (hdb : st.fault.database_down = true) :
    ((metrics_endpoint st).1 = st) ∧
    ((logs_endpoint st).1 = st) ∧
    ((chart_data_endpoint st).1 = st) ∧
    ((services_endpoint st).1 = st) ∧
    ((fault_status_endpoint st).1 = st) ∧
    ((inject_fault ft lat st).1.metrics = st.metrics) ∧
    ((inject_fault ft lat st).1.history = st.history) ∧
    ((inject_fault ft lat st).2.http_status ≠ 503) ∧
    ((inject_fault ft lat st).2.error_code ≠ some "DB_CONNECTION_FAILED") ∧
    ((recover_fault ft st).1.metrics = st.metrics) ∧
    ((recover_fault ft st).1.history = st.history) ∧
    ((recover_fault ft st).2.http_status ≠ 503) ∧
    ((recover_fault ft st).2.error_code ≠ some "DB_CONNECTION_FAILED") ∧
    ((fault_status_endpoint st).2.is_degraded = true) ∧
    ((recover_fault "all" st).1.fault.database_down = false) := by
  refine ⟨rfl, rfl, rfl, rfl, rfl, ?_, ?_, ?_, ?_, ?_, ?_, ?_, ?_, ?_, ?_⟩ <;>
    simp [inject_fault, recover_fault, fault_status_endpoint, fault_status, hdb] <;>
    split_ifs <;> simp

/-- Witness for C10 on the concrete outage state. -/
theorem c10_observability_unwrapped_witness :
    db_down_state.fault.database_down = true ∧
    (((metrics_endpoint db_down_state).1 = db_down_state) ∧
      ((logs_endpoint db_down_state).1 = db_down_state) ∧
      ((chart_data_endpoint db_down_state).1 = db_down_state) ∧
      ((services_endpoint db_down_state).1 = db_down_state) ∧
      ((fault_status_endpoint db_down_state).1 = db_down_state) ∧
      ((inject_fault "high_latency" 100 db_down_state).1.metrics = db_down_state.metrics) ∧
      ((inject_fault "high_latency" 100 db_down_state).1.history = db_down_state.history) ∧
      ((inject_fault "high_latency" 100 db_down_state).2.http_status ≠ 503) ∧
      ((inject_fault "high_latency" 100 db_down_state).2.error_code ≠
        some "DB_CONNECTION_FAILED") ∧
      ((recover_fault "high_latency" db_down_state).1.metrics = db_down_state.metrics) ∧
      ((recover_fault "high_latency" db_down_state).1.history = db_down_state.history) ∧
      ((recover_fault "high_latency" db_down_state).2.http_status ≠ 503) ∧
      ((recover_fault "high_latency" db_down_state).2.error_code ≠
        some "DB_CONNECTION_FAILED") ∧
      ((fault_status_endpoint db_down_state).2.is_degraded = true) ∧
      ((recover_fault "all" db_down_state).1.fault.database_down = false)) :=
  ⟨rfl, c10_observability_unwrapped db_down_state "high_latency" 100 rfl⟩
